import Mathlib

/-!
Verification of the Rice Doctor AI diagnostic pipeline (src/app.py).

The code is shallowly embedded: the `rice_consultant` dictionary becomes an
association list of `TreatmentRecord`s; probabilities are modelled as exact
rationals (`ℚ`); the process-wide mutable effects of a `diagnose` call
(temporary staging files created by `tempfile.NamedTemporaryFile`, the
inference invocations on the shared model, the module-level globals `model`
and `rice_consultant`) are threaded through an explicit `ProcState`.
`@st.cache_resource` caching of `load_model` and the fatal `try/except` +
`st.stop()` bootstrap are embedded as explicit state transitions.
-/

set_option autoImplicit false

/-- A treatment record: the four text fields stored per disease label in the
`rice_consultant` dictionary (src/app.py lines 11-42). -/
structure TreatmentRecord where
  type : String
  cause : String
  remedy : String
  prevention : String
deriving DecidableEq, Repr

/-- The `rice_consultant` dictionary of src/app.py lines 11-42, embedded as an
association list (insertion order preserved, keys unique). -/
def rice_consultant : List (String × TreatmentRecord) :=
  [ ("Brown Spot",
      { type := "Fungal Infection (Cochliobolus miyabeanus)"
        cause := "Often linked to Potassium (K) & Silicon (Si) deficiency."
        remedy := "Spray Propiconazole (1ml/liter)."
        prevention := "Boost Potassium (K) to thicken cell walls. Apply Calcium Silicate." }),
    ("Leaf Blast",
      { type := "Fungal Infection (Magnaporthe oryzae)"
        cause := "Triggered by Excess Nitrogen (toxic)."
        remedy := "Spray Tricyclazole 75 WP."
        prevention := "Avoid excess Urea. Split N application into 3-4 doses." }),
    ("Bacterial Leaf Blight",
      { type := "Bacterial Infection (Xanthomonas oryzae)"
        cause := "High Nitrogen + High Humidity."
        remedy := "Drain field. Spray Copper Oxychloride + Streptocycline."
        prevention := "Maintain proper drainage. Avoid late-stage Nitrogen." }),
    ("Tungro",
      { type := "Viral Disease (Vector: Green Leafhopper)"
        cause := "Spread by Leafhoppers."
        remedy := "Control vector with Imidacloprid."
        prevention := "Use resistant varieties (like IR36). Synchronous planting." }),
    ("Khaira",
      { type := "Abiotic Stress (Micronutrient Deficiency)"
        cause := "Zinc (Zn) Deficiency. Common in high pH soils."
        remedy := "Apply Zinc Sulphate (25kg/ha) + Urea spray."
        prevention := "Basal application of Zinc Sulphate. Green manuring (Dhaincha)." }) ]

/-- Python `rice_consultant.get(pred_name)` (src/app.py line 85): exact-key
lookup returning `none` when the label is absent. -/
def kbGet (label : String) : List (String × TreatmentRecord) → Option TreatmentRecord
  | [] => none
  | (k, r) :: rest => if k = label then some r else kbGet label rest

/-- The five disease labels the spec enumerates for the knowledge base. -/
def knownLabels : List String :=
  ["Brown Spot", "Leaf Blast", "Bacterial Leaf Blight", "Tungro", "Khaira"]

/-- All four fields of a record are non-empty. -/
def recordComplete (r : TreatmentRecord) : Bool :=
  r.type != "" && r.cause != "" && r.remedy != "" && r.prevention != ""

/-- Entry selected by `probs.top1` / `probs.top1conf` (src/app.py lines 76-79):
the first maximal entry of the probability list, starting from `e`. -/
def maxEntry (e : String × ℚ) (es : List (String × ℚ)) : String × ℚ :=
  es.foldl (fun b x => if x.2 > b.2 then x else b) e

/-- The top-1 entry of a ranked distribution: the (label, probability) pair
whose probability is maximal (first occurrence wins ties, as `argmax` does). -/
def top1 : List (String × ℚ) → Option (String × ℚ)
  | [] => none
  | e :: es => some (maxEntry e es)

/-- Result extraction of src/app.py lines 76-79: `pred_name = names[probs.top1]`
and `conf = probs.top1conf.item() * 100`. -/
def interpret (dist : List (String × ℚ)) : Option (String × ℚ) :=
  (top1 dist).map (fun e => (e.1, e.2 * 100))

/-- Pixel mode of a decoded in-memory PIL image (the values `Image.open` can
produce for the accepted jpg/png/jpeg uploads, src/app.py lines 101-107). -/
inductive ImageMode
  | RGB
  | RGBA
  | L
deriving DecidableEq, Repr

/-- A decoded in-memory raster image, abstracted to the attribute that decides
whether `image_source.save(tmp.name)` with a ".jpg" name succeeds. -/
structure Image where
  mode : ImageMode
deriving DecidableEq, Repr

/-- Models the PIL JPEG encoder invoked by `image_source.save(tmp.name)` on a
".jpg" path (src/app.py line 68): RGB and L images encode; an RGBA image (a
PNG with an alpha channel) raises OSError (cannot write mode RGBA as JPEG). -/
def jpegSavable : ImageMode → Bool
  | .RGB => true
  | .L => true
  | .RGBA => false

/-- The path of the staging file: `tempfile.NamedTemporaryFile` with
`suffix=".jpg"` (src/app.py line 67) always appends ".jpg" to the fresh base
name, whatever the format of the in-memory image. -/
def stagingPath (tmpBase : String) : String := tmpBase ++ ".jpg"

/-- Outcome of one `model(tmp_path)` invocation (src/app.py line 72): either a
ranked (label, probability) distribution or a raised backend exception. -/
inductive InferOutcome
  | ok (dist : List (String × ℚ))
  | err
deriving DecidableEq, Repr

/-- Process-wide state visible to a `diagnose` call: the loaded model instance
(global `model`, identified by a load counter), the module-level
`rice_consultant` dictionary, the staging files currently on disk, and a log
of inference invocations recording which model instance each one used. -/
structure ProcState where
  model : Nat
  kb : List (String × TreatmentRecord)
  stagedFiles : List String
  inferenceLog : List Nat
deriving DecidableEq, Repr

/-- The data `diagnose` hands to the presentation layer on success: the
predicted label with its 0-100 confidence (line 82), the advice record found
by `rice_consultant.get` (lines 85-91), and whether the "No specific advice
available." warning branch was taken (lines 92-93). -/
structure DiagnoseOutput where
  label : String
  confidence : ℚ
  advice : Option TreatmentRecord
  noAdviceWarning : Bool
deriving DecidableEq, Repr

/-- How one `diagnose` call terminates: normal return, an exception raised by
the PIL save during staging, an exception raised by `model(tmp_path)`, or an
empty probability vector (so `probs.top1` has no entry to select). -/
inductive DiagnoseResult
  | success (out : DiagnoseOutput)
  | stagingFailure
  | inferenceFailure
  | emptyResult
deriving DecidableEq, Repr

/-- The `diagnose` function of src/app.py lines 62-93, with its effects on the
process state made explicit. `tmpBase` is the fresh name chosen by
`tempfile.NamedTemporaryFile` and `backend` the oracle for what
`model(tmp_path)` does on this call. Steps, in source order: the temp file is
created on disk (line 67); the image is re-encoded into it as JPEG (line 68,
raising if the mode cannot be written as JPEG); inference runs (line 72,
logged against the current model instance); `os.remove` deletes the staging
file only after a successful inference (line 73); top-1 extraction (lines
76-79) and `rice_consultant.get` lookup with the warning fallback
(lines 85-93). -/
def diagnose (s : ProcState) (img : Image) (backend : InferOutcome)
    (tmpBase : String) : DiagnoseResult × ProcState :=
  let path := stagingPath tmpBase
  let s1 : ProcState := { s with stagedFiles := path :: s.stagedFiles }
  if jpegSavable img.mode then
    let s2 : ProcState := { s1 with inferenceLog := s1.model :: s1.inferenceLog }
    match backend with
    | .err => (.inferenceFailure, s2)
    | .ok dist =>
      let s3 : ProcState := { s2 with stagedFiles := s2.stagedFiles.erase path }
      match interpret dist with
      | none => (.emptyResult, s3)
      | some d =>
        let advice := kbGet d.1 s3.kb
        (.success { label := d.1, confidence := d.2, advice := advice,
                    noAdviceWarning := advice.isNone }, s3)
  else
    (.stagingFailure, s1)

/-- State of the `@st.cache_resource` cache backing `load_model`
(src/app.py lines 50-53): the cached instance, if any, and a counter of
artifact loads performed so far (also used to identify instances). -/
structure CacheState where
  cached : Option Nat
  loadCount : Nat
deriving DecidableEq, Repr

/-- The fixed local path the classifier artifact is loaded from
(src/app.py line 53). -/
def modelArtifactPath : String := "best.pt"

/-- `load_model()` under `@st.cache_resource` (src/app.py lines 50-53): on a
cache miss, `YOLO("best.pt")` loads a fresh instance from the fixed path and
the cache stores it; on a hit, the stored instance is returned with no load.
Returns (instance, new cache state, whether an artifact load was performed). -/
def load_model (s : CacheState) : Nat × CacheState × Bool :=
  match s.cached with
  | some m => (m, s, false)
  | none => (s.loadCount, { cached := some s.loadCount, loadCount := s.loadCount + 1 }, true)

/-- Process state after the module-level `try: model = load_model() except:`
block (src/app.py lines 55-59): either running with a loaded model, or halted
by `st.stop()` after surfacing the `st.error` message. -/
inductive BootState
  | running (model : Nat)
  | halted (errMsg : String)
deriving DecidableEq, Repr

/-- The user-facing fatal error text of src/app.py line 58. -/
def modelLoadErrorMessage : String :=
  "⚠️ Model not found! Please run the \x27Move Model\x27 code first."

/-- The bootstrap of src/app.py lines 55-59: one attempt to load the model;
on any exception, `st.error` surfaces the fatal message and `st.stop()` halts
the script, so the diagnosis UI below it never runs in that process. -/
def bootstrap (loadOutcome : Except String Nat) : BootState :=
  match loadOutcome with
  | .ok m => .running m
  | .error _ => .halted modelLoadErrorMessage

/-- Whether a process in this state can serve a `diagnose` request: after
`st.stop()` no further code of the script runs (src/app.py line 59). -/
def canServe : BootState → Bool
  | .running _ => true
  | .halted _ => false

/-- Process state at the start of a script run that passed bootstrap: model
instance loaded, `rice_consultant` constructed from its literal, no staging
files, no inferences yet. -/
def initState (m : Nat) : ProcState :=
  { model := m, kb := rice_consultant, stagedFiles := [], inferenceLog := [] }

/-- The synthetic ranked distribution of the end-to-end scenario in the spec:
Leaf Blast 0.87, Brown Spot 0.09, Tungro 0.04. -/
def demoDist : List (String × ℚ) :=
  [("Leaf Blast", 87/100), ("Brown Spot", 9/100), ("Tungro", 4/100)]

lemma maxEntry_cons (e x : String × ℚ) (xs : List (String × ℚ)) :
    maxEntry e (x :: xs) = maxEntry (if x.2 > e.2 then x else e) xs := rfl

lemma maxEntry_mem (es : List (String × ℚ)) :
    ∀ e : String × ℚ, maxEntry e es = e ∨ maxEntry e es ∈ es := by
  induction es with
  | nil => intro e; exact Or.inl rfl
  | cons x xs ih =>
    intro e
    rw [maxEntry_cons]
    rcases ih (if x.2 > e.2 then x else e) with h | h
    · by_cases hx : x.2 > e.2
      · right; rw [h, if_pos hx]; exact List.mem_cons_self _ _
      · left; rw [h, if_neg hx]
    · right; exact List.mem_cons_of_mem _ h

lemma init_le_maxEntry (es : List (String × ℚ)) :
    ∀ e : String × ℚ, e.2 ≤ (maxEntry e es).2 := by
  induction es with
  | nil => intro e; exact le_refl _
  | cons x xs ih =>
    intro e
    rw [maxEntry_cons]
    refine le_trans ?_ (ih _)
    by_cases hx : x.2 > e.2
    · rw [if_pos hx]; exact le_of_lt hx
    · rw [if_neg hx]

lemma mem_le_maxEntry (es : List (String × ℚ)) :
    ∀ (e x : String × ℚ), x ∈ es → x.2 ≤ (maxEntry e es).2 := by
  induction es with
  | nil => intro e x hx; cases hx
  | cons y ys ih =>
    intro e x hx
    rw [maxEntry_cons]
    rcases List.mem_cons.mp hx with rfl | hmem
    · refine le_trans ?_ (init_le_maxEntry ys _)
      by_cases hy : x.2 > e.2
      · rw [if_pos hy]
      · rw [if_neg hy]; exact le_of_not_lt hy
    · exact ih _ _ hmem

/-- Claim C2: for every label in {"Brown Spot", "Leaf Blast",
"Bacterial Leaf Blight", "Tungro", "Khaira"}, looking the label up in the
`rice_consultant` dictionary returns a record whose four fields (type, cause,
remedy, prevention) are all present and non-empty. -/
theorem knowledge_base_complete :
    knownLabels.all (fun l =>
      match kbGet l rice_consultant with
      | some r => recordComplete r
      | none => false) = true := by decide

/-- Claim C3: for any nonempty ranked distribution whose probabilities lie in
[0,1], the top-1 extraction of `diagnose` (lines 76-79) selects an entry of
the distribution whose probability is greater than or equal to every other
entry's probability, and reports confidence equal to that probability scaled
to a 0-100 percentage, so 0 ≤ confidence ≤ 100. No minimum-confidence
threshold appears anywhere: the conclusion holds with no lower bound on the
selected probability. -/
theorem interpret_top1_maximal (dist : List (String × ℚ)) (hne : dist ≠ [])
    (hbound : ∀ x ∈ dist, 0 ≤ x.2 ∧ x.2 ≤ 1) :
    ∃ e ∈ dist, top1 dist = some e ∧ interpret dist = some (e.1, e.2 * 100) ∧
      (∀ x ∈ dist, x.2 ≤ e.2) ∧ 0 ≤ e.2 * 100 ∧ e.2 * 100 ≤ 100 := by
  match dist, hne with
  | e :: es, _ =>
    have hmem : maxEntry e es ∈ e :: es := by
      rcases maxEntry_mem es e with h | h
      · rw [h]; exact List.mem_cons_self _ _
      · exact List.mem_cons_of_mem _ h
    have hmax : ∀ x ∈ e :: es, x.2 ≤ (maxEntry e es).2 := by
      intro x hx
      rcases List.mem_cons.mp hx with rfl | hxs
      · exact init_le_maxEntry es x
      · exact mem_le_maxEntry es e x hxs
    have hb := hbound (maxEntry e es) hmem
    refine ⟨maxEntry e es, hmem, rfl, rfl, hmax, ?_, ?_⟩
    · have := hb.1; positivity
    · nlinarith [hb.2]

/-- A decide-friendly canonical distribution used to instantiate
`interpret_top1_maximal`: Leaf Blast 87/100, Brown Spot 9/100. -/
def canonDist : List (String × ℚ) :=
  [("Leaf Blast", ⟨87, 100, by decide, by decide⟩),
   ("Brown Spot", ⟨9, 100, by decide, by decide⟩)]

/-- Witness for `interpret_top1_maximal` at the concrete distribution
`canonDist`. -/
theorem interpret_top1_maximal_witness :
    ∃ e ∈ canonDist, top1 canonDist = some e ∧
      interpret canonDist = some (e.1, e.2 * 100) ∧
      (∀ x ∈ canonDist, x.2 ≤ e.2) ∧ 0 ≤ e.2 * 100 ∧ e.2 * 100 ≤ 100 :=
  interpret_top1_maximal canonDist (by decide) (by decide)

/-- Claim C4: model acquisition is idempotent within a process. Under
`@st.cache_resource`, a call to `load_model` on an empty cache performs the
artifact load; after any call, a further call returns the same instance, with
the same cache state, and performs no second load. -/
theorem load_model_idempotent (s : CacheState) :
    (load_model { cached := none, loadCount := s.loadCount }).2.2 = true ∧
    (load_model (load_model s).2.1).1 = (load_model s).1 ∧
    (load_model (load_model s).2.1).2.1 = (load_model s).2.1 ∧
    (load_model (load_model s).2.1).2.2 = false := by
  cases h : s.cached <;> simp [load_model, h]

/-- Witness for `load_model_idempotent` at an initial empty cache. -/
theorem load_model_idempotent_witness :
    (load_model { cached := none, loadCount := 0 }).2.2 = true ∧
    (load_model (load_model { cached := none, loadCount := 0 }).2.1).1 =
      (load_model { cached := none, loadCount := 0 }).1 ∧
    (load_model (load_model { cached := none, loadCount := 0 }).2.1).2.1 =
      (load_model { cached := none, loadCount := 0 }).2.1 ∧
    (load_model (load_model { cached := none, loadCount := 0 }).2.1).2.2 = false :=
  load_model_idempotent { cached := none, loadCount := 0 }

/-- Claim C5: if the model artifact cannot be loaded, the bootstrap of
src/app.py lines 55-59 surfaces the user-facing fatal error message and halts
the process, so no diagnosis request is served in that process; the single
load outcome is consumed once, with no retry path. -/
theorem bootstrap_halts_on_load_failure (e : String) :
    bootstrap (Except.error e) = BootState.halted modelLoadErrorMessage ∧
    canServe (bootstrap (Except.error e)) = false := by
  exact ⟨rfl, rfl⟩

lemma diagnose_model_eq (s : ProcState) (img : Image) (b : InferOutcome)
    (t : String) : ((diagnose s img b t).2).model = s.model := by
  unfold diagnose
  cases hj : jpegSavable img.mode
  · simp [hj]
  · cases b with
    | err => simp [hj]
    | ok dist => cases hi : interpret dist <;> simp [hj, hi]

lemma diagnose_kb_eq (s : ProcState) (img : Image) (b : InferOutcome)
    (t : String) : ((diagnose s img b t).2).kb = s.kb := by
  unfold diagnose
  cases hj : jpegSavable img.mode
  · simp [hj]
  · cases b with
    | err => simp [hj]
    | ok dist => cases hi : interpret dist <;> simp [hj, hi]

lemma diagnose_log_savable (s : ProcState) (img : Image) (b : InferOutcome)
    (t : String) (h : jpegSavable img.mode = true) :
    ((diagnose s img b t).2).inferenceLog = s.model :: s.inferenceLog := by
  unfold diagnose
  cases b with
  | err => simp [h]
  | ok dist => cases hi : interpret dist <;> simp [h, hi]

/-- Claim C1 (refuting theorem, at the failing input): a `diagnose` call on a
stageable RGB image whose inference raises returns with the staging file
still on disk, because `os.remove(tmp_path)` (line 73) only runs after a
successful `model(tmp_path)` call; the success path does delete it. So the
staging file is NOT deleted on every exit path. -/
theorem diagnose_staging_leak_on_inference_failure :
    (diagnose (initState 0) ⟨ImageMode.RGB⟩ InferOutcome.err "stage-1").1 =
      DiagnoseResult.inferenceFailure ∧
    stagingPath "stage-1" ∈
      ((diagnose (initState 0) ⟨ImageMode.RGB⟩ InferOutcome.err "stage-1").2).stagedFiles ∧
    ((diagnose (initState 0) ⟨ImageMode.RGB⟩
        (InferOutcome.ok [("Leaf Blast", ⟨87, 100, by decide, by decide⟩)])
        "stage-1").2).stagedFiles = [] := by decide

/-- Claim C6: when the top-1 label of a successful inference is absent from the
knowledge base, `diagnose` still succeeds: it returns the Diagnosis for that
label, with no advice record and the "No specific advice available." warning
branch taken (src/app.py lines 85-93), not an error. -/
theorem diagnose_advisory_absent_succeeds (s : ProcState) (img : Image)
    (t : String) (dist : List (String × ℚ)) (e : String × ℚ)
    (hsave : jpegSavable img.mode = true)
    (htop : top1 dist = some e)
    (habs : kbGet e.1 s.kb = none) :
    (diagnose s img (InferOutcome.ok dist) t).1 =
      DiagnoseResult.success
        { label := e.1, confidence := e.2 * 100, advice := none,
          noAdviceWarning := true } := by
  have hi : interpret dist = some (e.1, e.2 * 100) := by
    rw [interpret, htop]; rfl
  unfold diagnose
  simp [hsave, hi, habs]

/-- Witness for `diagnose_advisory_absent_succeeds`: a distribution whose top
label "Sheath Blight" has no `rice_consultant` entry. -/
theorem diagnose_advisory_absent_succeeds_witness :
    (diagnose (initState 0) ⟨ImageMode.RGB⟩
        (InferOutcome.ok [("Sheath Blight", ⟨9, 10, by decide, by decide⟩)])
        "stage-1").1 =
      DiagnoseResult.success
        { label := "Sheath Blight",
          confidence := (⟨9, 10, by decide, by decide⟩ : ℚ) * 100,
          advice := none, noAdviceWarning := true } :=
  diagnose_advisory_absent_succeeds (initState 0) ⟨ImageMode.RGB⟩ "stage-1"
    [("Sheath Blight", ⟨9, 10, by decide, by decide⟩)]
    ("Sheath Blight", ⟨9, 10, by decide, by decide⟩)
    (by decide) (by decide) (by decide)

lemma demoDist_canon : demoDist =
    [("Leaf Blast", ⟨87, 100, by decide, by decide⟩),
     ("Brown Spot", ⟨9, 100, by decide, by decide⟩),
     ("Tungro", ⟨1, 25, by decide, by decide⟩)] := by
  have h1 : (87/100 : ℚ) = ⟨87, 100, by decide, by decide⟩ := by
    rw [Rat.mk'_eq_divInt, Rat.divInt_eq_div]; norm_num
  have h2 : (9/100 : ℚ) = ⟨9, 100, by decide, by decide⟩ := by
    rw [Rat.mk'_eq_divInt, Rat.divInt_eq_div]; norm_num
  have h3 : (4/100 : ℚ) = ⟨1, 25, by decide, by decide⟩ := by
    rw [Rat.mk'_eq_divInt, Rat.divInt_eq_div]; norm_num
  rw [demoDist, h1, h2, h3]

/-- Claim C7: on the synthetic ranked distribution Leaf Blast 0.87, Brown Spot
0.09, Tungro 0.04, `diagnose` succeeds with label "Leaf Blast" and confidence
87, and its knowledge-base lookup returns the record whose remedy is
"Spray Tricyclazole 75 WP.". -/
theorem diagnose_leaf_blast_scenario :
    ∃ out : DiagnoseOutput,
      (diagnose (initState 0) ⟨ImageMode.RGB⟩ (InferOutcome.ok demoDist)
          "stage-1").1 = DiagnoseResult.success out ∧
      out.label = "Leaf Blast" ∧ out.confidence = 87 ∧
      (∃ r : TreatmentRecord, out.advice = some r ∧
        r.remedy = "Spray Tricyclazole 75 WP.") ∧
      out.noAdviceWarning = false := by
  rw [demoDist_canon]
  refine ⟨{ label := "Leaf Blast",
            confidence := (⟨87, 100, by decide, by decide⟩ : ℚ) * 100,
            advice := some
              { type := "Fungal Infection (Magnaporthe oryzae)"
                cause := "Triggered by Excess Nitrogen (toxic)."
                remedy := "Spray Tricyclazole 75 WP."
                prevention := "Avoid excess Urea. Split N application into 3-4 doses." },
            noAdviceWarning := false }, rfl, rfl, ?_, ⟨_, rfl, rfl⟩, rfl⟩
  show (⟨87, 100, by decide, by decide⟩ : ℚ) * 100 = 87
  rw [Rat.mk'_eq_divInt, Rat.divInt_eq_div]
  norm_num

/-- Claim C8: a per-call inference failure is local to the call: on every
branch `diagnose` returns the shared model instance unchanged, and after a
failed call a subsequent call still runs its inference against the original
instance (the head of the inference log is the instance used). -/
theorem diagnose_preserves_model_handle (s : ProcState) (i1 : Image)
    (b1 b2 : InferOutcome) (t1 t2 : String) :
    ((diagnose s i1 b1 t1).2).model = s.model ∧
    ((diagnose (diagnose s i1 InferOutcome.err t1).2 ⟨ImageMode.RGB⟩ b2
        t2).2).model = s.model ∧
    ∃ rest : List Nat,
      ((diagnose (diagnose s i1 InferOutcome.err t1).2 ⟨ImageMode.RGB⟩ b2
          t2).2).inferenceLog = s.model :: rest := by
  have hm1 : ((diagnose s i1 InferOutcome.err t1).2).model = s.model :=
    diagnose_model_eq s i1 InferOutcome.err t1
  refine ⟨diagnose_model_eq s i1 b1 t1, ?_, ?_⟩
  · rw [diagnose_model_eq _ ⟨ImageMode.RGB⟩ b2 t2, hm1]
  · refine ⟨((diagnose s i1 InferOutcome.err t1).2).inferenceLog, ?_⟩
    rw [diagnose_log_savable _ ⟨ImageMode.RGB⟩ b2 t2 rfl, hm1]

/-- Claim C9: the knowledge base is immutable at runtime: it is constructed
once, from the `rice_consultant` literal, in the state every script run
starts from, and no `diagnose` call — on its success, failure or
advisory-absent branch — changes the label-to-record mapping. -/
theorem knowledge_base_immutable :
    (∀ m : Nat, (initState m).kb = rice_consultant) ∧
    ∀ (s : ProcState) (img : Image) (b : InferOutcome) (t : String),
      ((diagnose s img b t).2).kb = s.kb :=
  ⟨fun _ => rfl, fun s img b t => diagnose_kb_eq s img b t⟩

/-- Claim C10: the staging step always writes a file whose path ends in
".jpg" — `stagingPath` does not depend on the image at all — and on a
decodable RGBA image (a PNG with an alpha channel) `diagnose` raises during
the staging save itself, whatever the backend would have answered: the call
returns `stagingFailure` with the created temp file left behind and the
inference log unchanged, so the inference engine is never invoked. -/
theorem staging_jpg_rgba_fails_before_inference :
    (∀ base : String, stagingPath base = base ++ ".jpg") ∧
    ∀ (s : ProcState) (b : InferOutcome) (base : String),
      diagnose s ⟨ImageMode.RGBA⟩ b base =
        (DiagnoseResult.stagingFailure,
         { s with stagedFiles := stagingPath base :: s.stagedFiles }) ∧
      ((diagnose s ⟨ImageMode.RGBA⟩ b base).2).inferenceLog = s.inferenceLog := by
  refine ⟨fun _ => rfl, fun s b base => ⟨rfl, rfl⟩⟩
